import Mathlib

/-!
Verification of the datasette-embeddings plugin (src/datasette_embeddings/__init__.py)
against its natural-language specification.

The Python code is shallowly embedded: Python strings are Lean `String`s manipulated
through executable models of the Python string methods (`replace`, `split`, `join`,
`isdigit`, `strip`), IEEE-754 single-precision floats are represented by their 32-bit
patterns (a `Nat` below `2 ^ 32`), byte strings are `List Nat` with entries below
`2 ^ 8`, SQLite tables are explicit association-list states, and fallible code
returns `Except`.
-/

/-! ## Python string primitives

Executable models of the Python `str` methods used by the plugin.  `pyReplaceFuel`
uses a fuel parameter only to make the recursion structural; with a non-empty
pattern every replacement step consumes at least one character, so fuel equal to
the length of the subject string never runs out and the function agrees with
Python `str.replace` (all non-overlapping occurrences, scanned left to right).
-/

def pyReplaceFuel (pat rep : List Char) : Nat → List Char → List Char
  | 0, s => s
  | _ + 1, [] => []
  | fuel + 1, c :: rest =>
    if pat.isPrefixOf (c :: rest) then
      rep ++ pyReplaceFuel pat rep fuel ((c :: rest).drop pat.length)
    else c :: pyReplaceFuel pat rep fuel rest

/-- Python `s.replace(pat, rep)` for a non-empty pattern `pat`. -/
def pyReplace (s pat rep : String) : String :=
  String.mk (pyReplaceFuel pat.data rep.data s.data.length s.data)

def pySplitCharAux (sep : Char) : List Char → List (List Char)
  | [] => [[]]
  | c :: rest =>
    match pySplitCharAux sep rest with
    | [] => [[]]
    | g :: gs => if c = sep then [] :: g :: gs else (c :: g) :: gs

/-- Python `s.split(sep)` for a one-character separator (the plugin only ever
splits on `"-"`).  Empty fields are kept, exactly as in Python. -/
def pySplitChar (s : String) (sep : Char) : List String :=
  (pySplitCharAux sep s.data).map String.mk

def pyJoinAux (sep : List Char) : List (List Char) → List Char
  | [] => []
  | [x] => x
  | x :: y :: rest => x ++ sep ++ pyJoinAux sep (y :: rest)

/-- Python `sep.join(parts)`. -/
def pyJoin (sep : String) (parts : List String) : String :=
  String.mk (pyJoinAux sep.data (parts.map String.data))

/-- Python `s.isdigit()` restricted to ASCII text: true iff `s` is non-empty and
every character is a decimal digit. -/
def pyIsDigit (s : String) : Bool :=
  !s.data.isEmpty && s.data.all Char.isDigit

/-- Python `int(s)` for a string of decimal digits. -/
def pyParseNat (s : String) : Nat :=
  s.data.foldl (fun acc c => 10 * acc + (c.toNat - 48)) 0

/-- Python `s.strip()`: drop leading and trailing whitespace. -/
def pyStrip (s : String) : String :=
  String.mk (((s.data.dropWhile Char.isWhitespace).reverse.dropWhile Char.isWhitespace).reverse)

/-! ## Model allow-list and column-name mapping (source lines 16-23, 38-42, 246, 317) -/

/-- The `MODEL_NAMES` tuple from the source. -/
def MODEL_NAMES : List String :=
  ["text-embedding-3-large-256", "text-embedding-3-small-512", "text-embedding-3-large-1024",
   "text-embedding-3-small", "text-embedding-3-large"]

/-- Embedding column name for a model, from the f-string
`emb_` + `model.replace("-", "_")` (source lines 246 and 317). -/
def emb_column_for_model (model : String) : String :=
  "emb_" ++ pyReplace model "-" "_"

/-- Model name recovered from a column name, from the comprehension
`column.replace("emb_", "").replace("_", "-")` (source line 39).  Like the Python,
this replaces every occurrence of `emb_` and `_`, not just a prefix. -/
def model_for_column (column : String) : String :=
  pyReplace (pyReplace column "emb_" "") "_" "-"

/-- The mapping returned by `embedding_columns_for_table` (source lines 26-42):
empty when the shadow table does not exist, otherwise each `emb_`-prefixed column
of the shadow table whose recovered model name is in the allow-list, paired with
that model name, in column order. -/
def embedding_columns_for_table (shadowTableExists : Bool) (columns : List String) :
    List (String × String) :=
  if shadowTableExists = false then []
  else
    (columns.filter (fun column => "emb_".data.isPrefixOf column.data)).filterMap
      (fun column =>
        if model_for_column column ∈ MODEL_NAMES then some (column, model_for_column column)
        else none)

/-! ## Vector codec (source lines 296-302)

A float32 is represented by its 32-bit pattern; `encode_embedding` models
`struct.pack("<" + "f" * n, *embedding)` as four little-endian bytes per
component, and `decode_embedding` models `struct.unpack`, which fails (Python
`struct.error`, the spec's `MalformedVectorError`) exactly when the byte length
is not what the format `"<" + "f" * (len // 4)` requires, i.e. not a multiple
of four. -/

inductive DecodeError
  | malformedVector
  deriving DecidableEq

instance {ε α : Type} [DecidableEq ε] [DecidableEq α] : DecidableEq (Except ε α) := fun x y =>
  match x, y with
  | Except.ok a, Except.ok b => decidable_of_iff (a = b) (by simp)
  | Except.error a, Except.error b => decidable_of_iff (a = b) (by simp)
  | Except.ok _, Except.error _ => isFalse (by simp)
  | Except.error _, Except.ok _ => isFalse (by simp)

def encodeF32 (w : Nat) : List Nat :=
  [w % 2 ^ 8, w / 2 ^ 8 % 2 ^ 8, w / 2 ^ 16 % 2 ^ 8, w / 2 ^ 24 % 2 ^ 8]

def encode_embedding (embedding : List Nat) : List Nat :=
  (embedding.map encodeF32).flatten

def decodeWords : List Nat → List Nat
  | b0 :: b1 :: b2 :: b3 :: rest =>
    (b0 + 2 ^ 8 * b1 + 2 ^ 16 * b2 + 2 ^ 24 * b3) :: decodeWords rest
  | _ => []

def decode_embedding (binary : List Nat) : Except DecodeError (List Nat) :=
  if binary.length = 4 * (binary.length / 4) then Except.ok (decodeWords binary)
  else Except.error DecodeError.malformedVector

/-- A 32-bit pattern denotes a finite float iff its exponent field is not all ones. -/
def isFiniteF32 (w : Nat) : Bool :=
  w / 2 ^ 23 % 2 ^ 8 != 255

/-! ## Cosine similarity (source lines 118-124)

`f32ToRat` is the exact rational value of a finite float32 bit pattern.
`embeddings_cosine` decodes both operands and computes
`dot_product / (magnitude_a * magnitude_b)` as in the source.  The Python
`** 0.5` is modelled by `Rat.sqrt`, which agrees with IEEE square root whenever
the argument is a perfect square of a rational (as it is at every input used in
the claims, where each magnitude is exactly 1); ℚ division by zero yields 0
where Python would raise `ZeroDivisionError`, a case no claim touches. -/

def f32ToRat (w : Nat) : ℚ :=
  let sign : ℚ := if w / 2 ^ 31 % 2 = 1 then -1 else 1
  let e : Nat := w / 2 ^ 23 % 2 ^ 8
  let m : Nat := w % 2 ^ 23
  if e = 0 then sign * (m : ℚ) / 2 ^ 149
  else sign * ((2 ^ 23 + m : Nat) : ℚ) * 2 ^ e / 2 ^ 150

def embeddings_cosine (binary_a binary_b : List Nat) : Except DecodeError ℚ :=
  match decode_embedding binary_a, decode_embedding binary_b with
  | Except.error e, _ => Except.error e
  | _, Except.error e => Except.error e
  | Except.ok wa, Except.ok wb =>
    let a := wa.map f32ToRat
    let b := wb.map f32ToRat
    let dot_product : ℚ := (a.zip b).foldl (fun acc p => acc + p.1 * p.2) 0
    let magnitude_a : ℚ := Rat.sqrt (a.foldl (fun acc x => acc + x * x) 0)
    let magnitude_b : ℚ := Rat.sqrt (b.foldl (fun acc x => acc + x * x) 0)
    Except.ok (dot_product / (magnitude_a * magnitude_b))

/-- Bit pattern of float32 `1.0`. -/
def oneF32 : Nat := 1065353216

/-- Bit pattern of float32 `0.0`. -/
def zeroF32 : Nat := 0

/-- Bit pattern of float32 `-1.0`. -/
def negOneF32 : Nat := 3212836864

/-! ## Embedding request construction (source lines 271-281)

`EmbeddingsEnrichment.calculate_embedding` builds the JSON body
`{input, model}` and, when the token after the last hyphen of the model
identifier is all digits, replaces the model field by the re-joined remainder
and adds a `dimensions` field. -/

structure EmbeddingRequestBody where
  input : String
  model : String
  dimensions : Option Nat
  deriving DecidableEq

def calculate_embedding_body (text model : String) : EmbeddingRequestBody :=
  let parts := pySplitChar model '-'
  let last_bit := parts.getLastD ""
  if pyIsDigit last_bit = true then
    { input := text, model := pyJoin "-" parts.dropLast, dimensions := some (pyParseNat last_bit) }
  else
    { input := text, model := model, dimensions := none }

/-! ## Similarity search query construction (source lines 75-97)

`pk_join` is the join predicate built from the primary-key columns; `search_sql`
is the SQL text after `textwrap.dedent(...).format(...).strip()` — the dedent and
strip act on a fixed literal, so their result is spelled out directly. -/

def pk_join (table : String) (pks : List String) : String :=
  pyJoin " and "
    (pks.map (fun column => table ++ "." ++ column ++ " = _embeddings_" ++ table ++ "." ++ column))

def search_sql (table column : String) (pks : List String) : String :=
  "select\n  \"" ++ table ++ "\".*,\n  embeddings_cosine(\"_embeddings_" ++ table ++ "\".\"" ++
    column ++ "\", unhex(:vector)) as _similarity\nfrom \"" ++ table ++
    "\" join \"_embeddings_" ++ table ++ "\"\non " ++ pk_join table pks ++
    "\nwhere \"_embeddings_" ++ table ++ "\".\"" ++ column ++
    "\" is not null\norder by _similarity desc"

/-! ## SQLite state model

Tables are explicit states: named, typed columns in declaration order, the
primary-key column list, and rows as association lists from column name to
value.  `insert_or_replace` is SQLite `INSERT OR REPLACE` semantics: any row
with the same primary-key tuple is deleted and a complete fresh row is
inserted, with every column that the statement does not mention set to its
default, which is NULL here since the shadow tables declare no defaults. -/

inductive SQLiteValue
  | null
  | integer (i : Int)
  | text (s : String)
  | blob (b : List Nat)
  deriving DecidableEq

def rowValue (row : List (String × SQLiteValue)) (column : String) : SQLiteValue :=
  match row.lookup column with
  | some v => v
  | none => SQLiteValue.null

structure SQLiteTable where
  columns : List (String × String)
  pks : List String
  rows : List (List (String × SQLiteValue))
  deriving DecidableEq

def insert_or_replace (tbl : SQLiteTable) (assignment : List (String × SQLiteValue)) :
    SQLiteTable :=
  let newRow := tbl.columns.map (fun col => (col.1, rowValue assignment col.1))
  let key := tbl.pks.map (rowValue newRow)
  { tbl with
    rows := tbl.rows.filter (fun r => !(tbl.pks.map (rowValue r) == key)) ++ [newRow] }

/-- The row of `tbl` whose primary-key tuple equals `key`, if any. -/
def find_row (tbl : SQLiteTable) (key : List SQLiteValue) :
    Option (List (String × SQLiteValue)) :=
  tbl.rows.find? (fun r => tbl.pks.map (rowValue r) == key)

/-- The upsert issued per row by `enrich_batch` (source lines 326-334):
`INSERT OR REPLACE INTO shadow (pk1, ..., pkN, column_name) VALUES (...)` with the
row's primary-key values and the encoded vector. -/
def upsert_embedding (tbl : SQLiteTable) (pks : List String)
    (row : List (String × SQLiteValue)) (column_name : String) (blob : List Nat) :
    SQLiteTable :=
  insert_or_replace tbl (pks.map (fun pk => (pk, rowValue row pk)) ++
    [(column_name, SQLiteValue.blob blob)])

/-! ## EmbeddingsEnrichment.initialize (source lines 243-269)

A database is an association list from table name to table.  When the shadow
table is absent the code creates it from the source table's primary keys (types
copied, default integer) plus the embedding column.  When the shadow table is
already present, the source's `add_column_if_not_exists` reads and mutates
`db[table]` — the SOURCE table, not `db[shadow_table]` — and the model below
reproduces that faithfully. -/

def table_exists (db : List (String × SQLiteTable)) (name : String) : Bool :=
  (db.lookup name).isSome

def ensureShadowColumn (db : List (String × SQLiteTable)) (table model : String) :
    List (String × SQLiteTable) :=
  let column_name := "emb_" ++ pyReplace model "-" "_"
  let shadow_table := "_embeddings_" ++ table
  if table_exists db shadow_table then
    db.map (fun entry =>
      if entry.1 = table then
        if (entry.2.columns.lookup column_name).isSome then entry
        else (entry.1, { entry.2 with columns := entry.2.columns ++ [(column_name, "BLOB")] })
      else entry)
  else
    match db.lookup table with
    | none => db
    | some src =>
      db ++ [(shadow_table,
        { columns :=
            (src.pks.map (fun pk =>
              (pk, match src.columns.lookup pk with
                   | some t => t
                   | none => "INTEGER"))) ++ [(column_name, "BLOB")],
          pks := src.pks,
          rows := [] })]

/-! ## Batch enrichment driver (source lines 186-334)

`render_template` is the per-row template substitution: for each row field,
first the spaced placeholder then the unspaced one is replaced by
`str(value or "")`.  `enrich_batch` walks the batch in order; the remote call is
an oracle `embed` returning the vector's float32 bit patterns or a
`RemoteServiceError` (the `raise_for_status` of the source).  The source has no
per-row exception handling, so an error stops the walk immediately: writes
already made persist and the error propagates. -/

inductive RemoteServiceError
  | httpStatus (code : Nat)
  deriving DecidableEq

def natDecimalFuel : Nat → Nat → List Char
  | 0, _ => []
  | fuel + 1, n =>
    if n < 10 then [Char.ofNat (48 + n)]
    else natDecimalFuel fuel (n / 10) ++ [Char.ofNat (48 + n % 10)]

/-- Python `str(value or "")`: falsy values (NULL, 0, the empty string, an empty
blob) give the empty string.  A non-empty blob would render as Python's bytes
repr; no template in any claim touches a blob column, so it is rendered as a
fixed marker here. -/
def pyStrOrEmpty : SQLiteValue → String
  | SQLiteValue.null => ""
  | SQLiteValue.integer i =>
    if i = 0 then ""
    else (if i < 0 then "-" else "") ++ String.mk (natDecimalFuel (i.natAbs + 1) i.natAbs)
  | SQLiteValue.text s => s
  | SQLiteValue.blob b => if b.isEmpty then "" else "bytes"

def render_template (template : String) (row : List (String × SQLiteValue)) : String :=
  row.foldl
    (fun text kv =>
      pyReplace
        (pyReplace text ("\x7b\x7b " ++ kv.1 ++ " \x7d\x7d") (pyStrOrEmpty kv.2))
        ("\x7b\x7b" ++ kv.1 ++ "\x7d\x7d") (pyStrOrEmpty kv.2))
    template

/-- The `batch_size` class attribute of `EmbeddingsEnrichment` (source line 191). -/
def batch_size : Nat := 1

def enrich_batch (embed : String → Except RemoteServiceError (List Nat))
    (template model : String) (pks : List String) :
    SQLiteTable → List (List (String × SQLiteValue)) →
      SQLiteTable × Option RemoteServiceError
  | table, [] => (table, none)
  | table, row :: rest =>
    match embed (render_template template row) with
    | Except.error e => (table, some e)
    | Except.ok embedding =>
      enrich_batch embed template model pks
        (upsert_embedding table pks row ("emb_" ++ pyReplace model "-" "_")
          (encode_embedding embedding))
        rest

/-! ## Semantic-search request handler (source lines 45-104)

Control flow of `embeddings_semantic_search` on a POST, as a function of the
embedding-column mapping and the raw `q` form value.  The first component
collects the `add_message` calls; note the code records the
no-stored-embeddings message but does not return, so a POST with a non-empty
query then evaluates `next(iter({}.items()))`, which raises `StopIteration`. -/

inductive HandlerOutcome
  | redirect (path : String)
  | proceeds (column_name model_name : String)
  | raisedStopIteration
  deriving DecidableEq

def semantic_search_post (request_path : String)
    (embedding_columns : List (String × String)) (q_raw : String) :
    List String × HandlerOutcome :=
  let messages :=
    if embedding_columns.isEmpty then ["Table does not have any stored embeddings"] else []
  let q := pyStrip q_raw
  if q = "" then (messages ++ ["Search query is required"], HandlerOutcome.redirect request_path)
  else
    match embedding_columns with
    | [] => (messages, HandlerOutcome.raisedStopIteration)
    | (column_name, model_name) :: _ =>
      (messages, HandlerOutcome.proceeds column_name model_name)

/-! ## Codec lemmas -/

theorem encode_embedding_length : ∀ v : List Nat, (encode_embedding v).length = 4 * v.length
  | [] => by simp [encode_embedding]
  | w :: vs => by
    have ih := encode_embedding_length vs
    simp [encode_embedding, encodeF32] at ih ⊢
    omega

theorem decodeWords_encodeF32_append (w : Nat) (hw : w < 2 ^ 32) (rest : List Nat) :
    decodeWords (encodeF32 w ++ rest) = w :: decodeWords rest := by
  simp [encodeF32, decodeWords]
  omega

theorem decodeWords_encode_embedding :
    ∀ v : List Nat, (∀ w ∈ v, w < 2 ^ 32) → decodeWords (encode_embedding v) = v
  | [], _ => by simp [encode_embedding, decodeWords]
  | w :: vs, h => by
    have hw : w < 2 ^ 32 := h w (by simp)
    have ih := decodeWords_encode_embedding vs (fun x hx => h x (by simp [hx]))
    have hsplit : encode_embedding (w :: vs) = encodeF32 w ++ encode_embedding vs := by
      simp [encode_embedding]
    rw [hsplit, decodeWords_encodeF32_append w hw, ih]

theorem decodeWords_length : ∀ bs : List Nat, (decodeWords bs).length = bs.length / 4
  | [] => by simp [decodeWords]
  | [_] => by simp [decodeWords]
  | [_, _] => by simp [decodeWords]
  | [_, _, _] => by simp [decodeWords]
  | _ :: _ :: _ :: _ :: rest => by
    have ih := decodeWords_length rest
    simp [decodeWords, ih]
    omega

theorem decodeWords_getD :
    ∀ (bs : List Nat) (i : Nat), i < bs.length / 4 →
      (decodeWords bs).getD i 0 =
        bs.getD (4 * i) 0 + 2 ^ 8 * bs.getD (4 * i + 1) 0 +
          2 ^ 16 * bs.getD (4 * i + 2) 0 + 2 ^ 24 * bs.getD (4 * i + 3) 0
  | [], i, h => by simp only [List.length_nil] at h; omega
  | [_], i, h => by simp only [List.length_cons, List.length_nil] at h; omega
  | [_, _], i, h => by simp only [List.length_cons, List.length_nil] at h; omega
  | [_, _, _], i, h => by simp only [List.length_cons, List.length_nil] at h; omega
  | b0 :: b1 :: b2 :: b3 :: rest, 0, _ => by simp [decodeWords]
  | b0 :: b1 :: b2 :: b3 :: rest, i + 1, h => by
    have hlt : i < rest.length / 4 := by
      simp only [List.length_cons] at h
      omega
    have ih := decodeWords_getD rest i hlt
    have e0 : 4 * (i + 1) = 4 * i + 1 + 1 + 1 + 1 := by ring
    have e1 : 4 * (i + 1) + 1 = 4 * i + 1 + 1 + 1 + 1 + 1 := by ring
    have e2 : 4 * (i + 1) + 2 = 4 * i + 1 + 1 + 1 + 1 + 1 + 1 := by ring
    have e3 : 4 * (i + 1) + 3 = 4 * i + 1 + 1 + 1 + 1 + 1 + 1 + 1 := by ring
    simp only [decodeWords, e0, e1, e2, e3, List.getD_cons_succ]
    exact ih

/-- Claim C3: decoding the encoding of any sequence of finite single-precision
floats (represented by their 32-bit patterns) returns the sequence exactly,
component-wise and with the same length. -/
theorem c3_decode_encode_roundtrip (v : List Nat)
    (h : ∀ w ∈ v, w < 2 ^ 32 ∧ isFiniteF32 w = true) :
    decode_embedding (encode_embedding v) = Except.ok v := by
  have h32 : ∀ w ∈ v, w < 2 ^ 32 := fun w hw => (h w hw).1
  have hlen := encode_embedding_length v
  have hc : (encode_embedding v).length = 4 * ((encode_embedding v).length / 4) := by omega
  rw [decode_embedding, if_pos hc, decodeWords_encode_embedding v h32]

/-- Claim C3 witness: the round trip evaluated on the concrete vector
`[1.0, 0.0]` of float32 bit patterns. -/
theorem c3_decode_encode_roundtrip_witness :
    decode_embedding (encode_embedding [oneF32, zeroF32]) = Except.ok [oneF32, zeroF32] :=
  c3_decode_encode_roundtrip [oneF32, zeroF32] (by decide)

/-- Claim C4: decoding a byte string whose length is not a multiple of 4 fails
with the malformed-vector error (Python `struct.error`, the spec's
`MalformedVectorError`); decoding a byte string whose length is a multiple of 4
returns the sequence of consecutive 4-byte little-endian words, one per 4-byte
chunk in order. -/
theorem c4_decode_length_check (binary : List Nat) :
    (binary.length % 4 ≠ 0 →
      decode_embedding binary = Except.error DecodeError.malformedVector) ∧
    (binary.length % 4 = 0 →
      decode_embedding binary = Except.ok (decodeWords binary) ∧
      (decodeWords binary).length = binary.length / 4 ∧
      ∀ i, i < binary.length / 4 →
        (decodeWords binary).getD i 0 =
          binary.getD (4 * i) 0 + 2 ^ 8 * binary.getD (4 * i + 1) 0 +
            2 ^ 16 * binary.getD (4 * i + 2) 0 + 2 ^ 24 * binary.getD (4 * i + 3) 0) := by
  constructor
  · intro h
    have hne : ¬ binary.length = 4 * (binary.length / 4) := by omega
    rw [decode_embedding, if_neg hne]
  · intro h
    have heq : binary.length = 4 * (binary.length / 4) := by omega
    refine ⟨by rw [decode_embedding, if_pos heq], decodeWords_length binary, ?_⟩
    exact fun i hi => decodeWords_getD binary i hi

/-- Claim C4 witness: a 3-byte string fails to decode, and a 4-byte string
decodes to its single little-endian word. -/
theorem c4_decode_length_check_witness :
    decode_embedding [0, 0, 128] = Except.error DecodeError.malformedVector ∧
      decode_embedding [0, 0, 128, 63] = Except.ok [1065353216] :=
  ⟨(c4_decode_length_check [0, 0, 128]).1 (by decide),
    ((c4_decode_length_check [0, 0, 128, 63]).2 (by decide)).1.trans
      (congrArg Except.ok (by decide))⟩

/-- Claim C9: the cosine-similarity function returns exactly 1 on
`encode([1,0])` paired with itself, exactly 0 on `encode([1,0])` paired with
`encode([0,1])`, and exactly -1 on `encode([1,0])` paired with
`encode([-1,0])`.  Every IEEE operation the source performs at these inputs is
exact, so the rational model coincides with the Python float computation. -/
theorem c9_cosine_reference_values :
    embeddings_cosine (encode_embedding [oneF32, zeroF32])
        (encode_embedding [oneF32, zeroF32]) = Except.ok 1 ∧
      embeddings_cosine (encode_embedding [oneF32, zeroF32])
        (encode_embedding [zeroF32, oneF32]) = Except.ok 0 ∧
      embeddings_cosine (encode_embedding [oneF32, zeroF32])
        (encode_embedding [negOneF32, zeroF32]) = Except.ok (-1) := by
  refine ⟨?_, ?_, ?_⟩ <;>
    norm_num [embeddings_cosine, decode_embedding, decodeWords, encode_embedding, encodeF32,
      f32ToRat, oneF32, zeroF32, negOneF32]

/-- Claim C5: the embedding request is built by parsing the model identifier —
when the token after the last hyphen is all digits, the model field is the
identifier with that token stripped (remaining tokens re-joined with hyphens)
and a dimensions field carries that integer; otherwise the identifier is sent
unchanged with no dimensions field.  In particular
`text-embedding-3-large-256` yields model `text-embedding-3-large` with
dimensions 256, and `text-embedding-3-small` is sent unchanged. -/
theorem c5_model_identifier_parsing (text model : String) :
    (pyIsDigit ((pySplitChar model '-').getLastD "") = true →
      calculate_embedding_body text model =
        { input := text, model := pyJoin "-" (pySplitChar model '-').dropLast,
          dimensions := some (pyParseNat ((pySplitChar model '-').getLastD "")) }) ∧
    (pyIsDigit ((pySplitChar model '-').getLastD "") = false →
      calculate_embedding_body text model =
        { input := text, model := model, dimensions := none }) ∧
    calculate_embedding_body text "text-embedding-3-large-256" =
      { input := text, model := "text-embedding-3-large", dimensions := some 256 } ∧
    calculate_embedding_body text "text-embedding-3-small" =
      { input := text, model := "text-embedding-3-small", dimensions := none } := by
  refine ⟨fun h => ?_, fun h => ?_, ?_, ?_⟩
  · simp only [calculate_embedding_body]
    rw [if_pos h]
  · simp only [calculate_embedding_body]
    rw [if_neg (by simp only [h]; decide)]
  · rfl
  · rfl

/-- Claim C5 witness: the parsing rule applied to the concrete identifier
`text-embedding-3-small-512`. -/
theorem c5_model_identifier_parsing_witness :
    calculate_embedding_body "hello" "text-embedding-3-small-512" =
      { input := "hello", model := "text-embedding-3-small", dimensions := some 512 } :=
  ((c5_model_identifier_parsing "hello" "text-embedding-3-small-512").1 (by decide)).trans
    (by decide)

/-- Claim C6: for every model identifier in the allow-list, the reverse column
mapping (strip the `emb_` prefix, underscores back to hyphens) inverts the
column derivation (prefix `emb_`, hyphens to underscores), so the reverse of a
derived column recovers the identifier and derive-reverse-derive is stable. -/
theorem c6_column_mapping_invertible (id : String) (h : id ∈ MODEL_NAMES) :
    model_for_column (emb_column_for_model id) = id ∧
      emb_column_for_model (model_for_column (emb_column_for_model id)) =
        emb_column_for_model id := by
  simp only [ MODEL_NAMES, List.mem_cons, List.not_mem_nil, or_false] at h
  rcases h with rfl | rfl | rfl | rfl | rfl <;> exact ⟨by decide, by decide⟩

/-- Claim C6 witness: the round trip evaluated on the allow-list identifier
`text-embedding-3-large-256`. -/
theorem c6_column_mapping_invertible_witness :
    model_for_column (emb_column_for_model "text-embedding-3-large-256") =
        "text-embedding-3-large-256" ∧
      emb_column_for_model (model_for_column (emb_column_for_model
          "text-embedding-3-large-256")) =
        emb_column_for_model "text-embedding-3-large-256" :=
  c6_column_mapping_invertible "text-embedding-3-large-256" (by decide)

/-- Claim C10: a POST whose stripped search query is non-empty, against a table
with no stored embedding columns, records the no-stored-embeddings error
message yet still proceeds to select the first embedding column, so
`next(iter(...))` on the empty mapping raises `StopIteration` — no redirect and
no page is produced. -/
theorem c10_empty_mapping_stop_iteration (request_path q_raw : String)
    (h : pyStrip q_raw ≠ "") :
    semantic_search_post request_path [] q_raw =
      (["Table does not have any stored embeddings"], HandlerOutcome.raisedStopIteration) := by
  simp [semantic_search_post, h]

/-- Claim C10 witness: the handler evaluated on the concrete query
`Second item` with an empty embedding-column mapping. -/
theorem c10_empty_mapping_stop_iteration_witness :
    semantic_search_post "/data/items/-/semantic-search" [] "Second item" =
      (["Table does not have any stored embeddings"], HandlerOutcome.raisedStopIteration) :=
  c10_empty_mapping_stop_iteration "/data/items/-/semantic-search" "Second item" (by decide)

set_option maxRecDepth 16384 in
/-- Claim C7: the generated search query joins the source table to its shadow
table with AND-combined equality predicates over every primary-key column in
declaration order, filters out shadow rows whose chosen embedding column is
null, computes the cosine similarity of that column against the hex-decoded
vector parameter as the `_similarity` alias, and orders descending by it; the
query text is a pure function of the source table, the primary-key columns and
the chosen column (the first conjunct gives its closed form on those three
inputs).  For primary key `(category, id)` on table `items` the join predicate
is exactly
`items.category = _embeddings_items.category and items.id = _embeddings_items.id`. -/
theorem c7_search_query_construction :
    (∀ table column pks, search_sql table column pks =
      "select\n  \"" ++ table ++ "\".*,\n  embeddings_cosine(\"_embeddings_" ++ table ++
        "\".\"" ++ column ++ "\", unhex(:vector)) as _similarity\nfrom \"" ++ table ++
        "\" join \"_embeddings_" ++ table ++ "\"\non " ++ pk_join table pks ++
        "\nwhere \"_embeddings_" ++ table ++ "\".\"" ++ column ++
        "\" is not null\norder by _similarity desc") ∧
    (∀ table c, pk_join table [c] =
      table ++ "." ++ c ++ " = _embeddings_" ++ table ++ "." ++ c) ∧
    (∀ table c d rest, pk_join table (c :: d :: rest) =
      (table ++ "." ++ c ++ " = _embeddings_" ++ table ++ "." ++ c) ++ " and " ++
        pk_join table (d :: rest)) ∧
    pk_join "items" ["category", "id"] =
      "items.category = _embeddings_items.category and items.id = _embeddings_items.id" ∧
    search_sql "items" "emb_text_embedding_3_large_256" ["category", "id"] =
      "select\n  \"items\".*,\n  embeddings_cosine(\"_embeddings_items\".\"emb_text_embedding_3_large_256\", unhex(:vector)) as _similarity\nfrom \"items\" join \"_embeddings_items\"\non items.category = _embeddings_items.category and items.id = _embeddings_items.id\nwhere \"_embeddings_items\".\"emb_text_embedding_3_large_256\" is not null\norder by _similarity desc" := by
  refine ⟨fun table column pks => rfl, fun table c => rfl, fun table c d rest => ?_, ?_, ?_⟩
  · simp [pk_join, pyJoin, pyJoinAux, String.ext_iff]
  · decide
  · decide

/-- Claim C1 evaluated at a failing input (code bug): the upsert of
`enrich_batch` is SQLite `INSERT OR REPLACE` naming only the primary-key
columns and the one embedding column, which is a full-row replace.  In a shadow
row that already holds a vector for `emb_text_embedding_3_large_256`, writing a
vector into `emb_text_embedding_3_small` for the same primary key replaces the
whole row and leaves the large-256 column NULL — the other model's stored
vector is clobbered, contradicting the claim. -/
theorem c1_insert_or_replace_clobbers_other_columns :
    let before : SQLiteTable :=
      { columns := [("id", "INTEGER"), ("emb_text_embedding_3_large_256", "BLOB"),
          ("emb_text_embedding_3_small", "BLOB")],
        pks := ["id"],
        rows := [[("id", SQLiteValue.integer 1),
          ("emb_text_embedding_3_large_256", SQLiteValue.blob [0, 0, 128, 63]),
          ("emb_text_embedding_3_small", SQLiteValue.null)]] }
    let after := upsert_embedding before ["id"] [("id", SQLiteValue.integer 1)]
      "emb_text_embedding_3_small" [0, 0, 0, 0]
    ((find_row before [SQLiteValue.integer 1]).map
        (fun r => rowValue r "emb_text_embedding_3_large_256")) =
      some (SQLiteValue.blob [0, 0, 128, 63]) ∧
    ((find_row after [SQLiteValue.integer 1]).map
        (fun r => rowValue r "emb_text_embedding_3_large_256")) =
      some SQLiteValue.null ∧
    ((find_row after [SQLiteValue.integer 1]).map
        (fun r => rowValue r "emb_text_embedding_3_small")) =
      some (SQLiteValue.blob [0, 0, 0, 0]) := by
  refine ⟨by decide, by decide, by decide⟩

/-- Claim C2 evaluated at a failing input (code bug): when the shadow table
already exists, `initialize`'s `add_column_if_not_exists` checks and mutates
`db[table]` — the SOURCE table — instead of `db[shadow_table]`.  Starting from
a database where `_embeddings_items` exists with the large-256 column,
initializing with model `text-embedding-3-small` leaves the shadow table's
columns unchanged and instead appends the new embedding column to the source
table `items`, contradicting the claim that the shadow table gains the
column. -/
theorem c2_add_column_targets_source_table :
    let items : SQLiteTable := { columns := [("id", "INTEGER")], pks := ["id"], rows := [] }
    let shadow : SQLiteTable :=
      { columns := [("id", "INTEGER"), ("emb_text_embedding_3_large_256", "BLOB")],
        pks := ["id"], rows := [] }
    let db := [("items", items), ("_embeddings_items", shadow)]
    let after := ensureShadowColumn db "items" "text-embedding-3-small"
    ((after.lookup "_embeddings_items").map SQLiteTable.columns) =
      some [("id", "INTEGER"), ("emb_text_embedding_3_large_256", "BLOB")] ∧
    ((after.lookup "items").map SQLiteTable.columns) =
      some [("id", "INTEGER"), ("emb_text_embedding_3_small", "BLOB")] := by
  refine ⟨by decide, by decide⟩

/-- Remote-call oracle used to exercise `enrich_batch`: fails with HTTP 500 on
the rendered text of the first test row and succeeds with the vector `[1, 0]`
on anything else. -/
def embedStub (text : String) : Except RemoteServiceError (List Nat) :=
  if text = "One First item" then Except.error (RemoteServiceError.httpStatus 500)
  else Except.ok [oneF32, zeroF32]

/-- Claim C8 counterexample: in a two-row batch whose first row's remote call
fails (and whose second row's call would succeed), `enrich_batch` stops at the
first row — the second row is never upserted into the shadow table — so a
failure while processing one row does abort the remaining rows of the batch,
contradicting the claim as stated. -/
theorem c8_counterexample_failure_aborts_batch :
    let shadow : SQLiteTable :=
      { columns := [("id", "INTEGER"), ("emb_text_embedding_3_large_256", "BLOB")],
        pks := ["id"], rows := [] }
    let row1 : List (String × SQLiteValue) :=
      [("id", SQLiteValue.integer 1), ("name", SQLiteValue.text "One"),
        ("description", SQLiteValue.text "First item")]
    let row2 : List (String × SQLiteValue) :=
      [("id", SQLiteValue.integer 2), ("name", SQLiteValue.text "Two"),
        ("description", SQLiteValue.text "Second item")]
    let result := enrich_batch embedStub "\x7b\x7b name \x7d\x7d \x7b\x7b description \x7d\x7d"
      "text-embedding-3-large-256" ["id"] shadow [row1, row2]
    result.2 = some (RemoteServiceError.httpStatus 500) ∧
    find_row result.1 [SQLiteValue.integer 2] = none ∧
    embedStub (render_template "\x7b\x7b name \x7d\x7d \x7b\x7b description \x7d\x7d" row2) =
      Except.ok [oneF32, zeroF32] := by
  refine ⟨by decide, by decide, by decide⟩

/-- Claim C8 as amended: an error from the remote call while processing a row
makes `enrich_batch` return that error immediately — earlier rows' upserts
persist in the table state it was given, and the rows after the failing one are
not processed — and the enrichment declares `batch_size = 1`, so in operation
every batch holds a single row and the orchestrator receives the row+error
pairing at batch granularity; a successful row is upserted and the batch
continues. -/
theorem c8_amended_per_row_failure_propagates :
    batch_size = 1 ∧
    (∀ embed template model pks (table : SQLiteTable) row rest e,
      embed (render_template template row) = Except.error e →
      enrich_batch embed template model pks table (row :: rest) = (table, some e)) ∧
    (∀ embed template model pks (table : SQLiteTable) row rest embedding,
      embed (render_template template row) = Except.ok embedding →
      enrich_batch embed template model pks table (row :: rest) =
        enrich_batch embed template model pks
          (upsert_embedding table pks row ("emb_" ++ pyReplace model "-" "_")
            (encode_embedding embedding)) rest) := by
  refine ⟨rfl, ?_, ?_⟩
  · intro embed template model pks table row rest e h
    simp [enrich_batch, h]
  · intro embed template model pks table row rest embedding h
    simp [enrich_batch, h]

/-- Claim C8 amended witness: the error-propagation branch applied to a
concrete one-row batch whose remote call fails. -/
theorem c8_amended_per_row_failure_propagates_witness :
    enrich_batch embedStub "\x7b\x7b name \x7d\x7d" "text-embedding-3-large-256" ["id"]
        { columns := [("id", "INTEGER")], pks := ["id"], rows := [] }
        [[("name", SQLiteValue.text "One First item")]] =
      ({ columns := [("id", "INTEGER")], pks := ["id"], rows := [] },
        some (RemoteServiceError.httpStatus 500)) :=
  c8_amended_per_row_failure_propagates.2.1 embedStub "\x7b\x7b name \x7d\x7d"
    "text-embedding-3-large-256" ["id"]
    { columns := [("id", "INTEGER")], pks := ["id"], rows := [] }
    [("name", SQLiteValue.text "One First item")] []
    (RemoteServiceError.httpStatus 500) (by decide)
